import Mathlib

/-!
Shallow embedding of the meeting-notes summarizer backend: the in-memory
entity store (`MemStorage` in `schema.ts`) and the orchestration handlers
(`routes.ts`).  JavaScript string primitives used by the code
(`String.prototype.trim`, `split(/\s+/)`, `Number.prototype.toString`,
`replace(/\n/g, ...)`, the `x || null` coalescing idiom and `Map.set`
insertion-order semantics) are modelled explicitly on `List Char` so that
all definitions reduce in the kernel.
-/

namespace MeetingNotes

/-- Model of JavaScript `String.prototype.trim`: drop whitespace from both
ends of the character list. -/
def jsTrim (s : List Char) : List Char :=
  ((s.dropWhile Char.isWhitespace).reverse.dropWhile Char.isWhitespace).reverse

/-- String wrapper around `jsTrim`, as used by the handlers on `content`. -/
def jsTrimStr (s : String) : String :=
  ⟨jsTrim s.toList⟩

/-- Worker for the model of JavaScript `split(/\s+/)`: `acc` holds the
(reversed) characters of the token currently being read.  Hitting a
whitespace character emits the current token (possibly empty, as JS does at
the start of the string) and skips the whole whitespace run; the end of the
input emits the final token (possibly empty, as JS does at the end).
Structural recursion on a fuel counter so that the kernel can evaluate it;
every step consumes at least one input character, so any fuel above the
input length is adequate. -/
def splitWsGo : Nat → List Char → List Char → List (List Char)
  | 0, _, acc => [acc.reverse]
  | _ + 1, [], acc => [acc.reverse]
  | fuel + 1, c :: rest, acc =>
    if c.isWhitespace then
      acc.reverse :: splitWsGo fuel (rest.dropWhile Char.isWhitespace) []
    else
      splitWsGo fuel rest (c :: acc)

/-- Model of JavaScript `s.split(/\s+/)`: split at maximal whitespace runs.
On the empty string this yields `[[]]` (JS: `"".split(/\s+/) === [""]`). -/
def splitWs (s : List Char) : List (List Char) :=
  splitWsGo (s.length + 1) s []

/-- Worker for the model of JavaScript `Number.prototype.toString` on a
natural number: pushes decimal digits into `acc`, least significant first.
Structural recursion on a fuel counter (adequate whenever it exceeds the
number of digits, in particular at `n + 1`). -/
def natToStrAux : Nat → Nat → List Char → List Char
  | 0, _, acc => acc
  | fuel + 1, n, acc =>
    let d := Char.ofNat (48 + n % 10)
    if n < 10 then d :: acc
    else natToStrAux fuel (n / 10) (d :: acc)

/-- Model of JavaScript `Number.prototype.toString` (base 10) on a natural
number, as used by `.length.toString()` in the word-count computation. -/
def natToStr (n : Nat) : String :=
  ⟨natToStrAux (n + 1) n []⟩

/-- The word-count computation that appears verbatim in
`MemStorage.updateSummary` and in the generate-summary handler:
`content.trim().split(/\s+/).length.toString()`. -/
def jsWordCount (content : String) : String :=
  natToStr (splitWs (jsTrim content.toList)).length

/-- Model of the JavaScript idiom `x || null` on an optional string:
`undefined`/`null` and the (falsy) empty string become the explicit absent
marker, every other string is kept. -/
def orNull : Option String → Option String
  | none => none
  | some s => if s = "" then none else some s

/-- Model of JavaScript `s.replace(/\n/g, "<br>")`, used to produce the
HTML rendering of the email body. -/
def brOfNewlines : List Char → List Char
  | [] => []
  | c :: rest =>
    if c = '\n' then '<' :: 'b' :: 'r' :: '>' :: brOfNewlines rest
    else c :: brOfNewlines rest

/-- String wrapper around `brOfNewlines`. -/
def brOfNewlinesStr (s : String) : String :=
  ⟨brOfNewlines s.toList⟩

/-- Model of `JSON.stringify` on an array of strings (escaping of special
characters inside the strings is not modelled; no claim depends on it). -/
def jsonStringify (l : List String) : String :=
  "[" ++ String.intercalate "," (l.map (fun s => "\"" ++ s ++ "\"")) ++ "]"

/-- Model of JavaScript `Map.set` for a map keyed by `key`: if the key is
already present the value is replaced in place (keeping its insertion
position); otherwise the entry is appended at the end, matching the
insertion-order iteration of `Map.values()`. -/
def jsMapSet {α : Type} (key : α → String) (l : List α) (v : α) : List α :=
  if l.any (fun x => key x == key v) then
    l.map (fun x => if key x == key v then v else x)
  else
    l ++ [v]

/-- Model of JavaScript `Map.get` over the insertion-ordered entry list. -/
def jsMapGet {α : Type} (key : α → String) (l : List α) (id : String) : Option α :=
  l.find? (fun x => key x == id)

/-- The `transcripts` row type of `schema.ts`: `fileName` is nullable,
`createdAt` is modelled as an abstract tick supplied by the caller. -/
structure Transcript where
  id : String
  content : String
  fileName : Option String
  createdAt : Nat
deriving DecidableEq

/-- The `summaries` row type of `schema.ts`: `customInstructions` and
`wordCount` are nullable text columns. -/
structure Summary where
  id : String
  transcriptId : String
  content : String
  customInstructions : Option String
  wordCount : Option String
  createdAt : Nat
deriving DecidableEq

/-- The `email_shares` row type of `schema.ts`: `recipients` is a JSON
string of the email array. -/
structure EmailShare where
  id : String
  summaryId : String
  recipients : String
  subject : String
  message : Option String
  sentAt : Nat
deriving DecidableEq

/-- `InsertTranscript` (the picked columns of `insertTranscriptSchema`). -/
structure InsertTranscript where
  content : String
  fileName : Option String
deriving DecidableEq

/-- `InsertSummary` (the picked columns of `insertSummarySchema`). -/
structure InsertSummary where
  transcriptId : String
  content : String
  customInstructions : Option String
  wordCount : Option String
deriving DecidableEq

/-- `InsertEmailShare` (the picked columns of `insertEmailShareSchema`). -/
structure InsertEmailShare where
  summaryId : String
  recipients : String
  subject : String
  message : Option String
deriving DecidableEq

/-- The `MemStorage` state: three insertion-ordered keyed collections.
`randomUUID()` is modelled by a counter producing fresh ids. -/
structure MemStorage where
  transcripts : List Transcript
  summaries : List Summary
  emailShares : List EmailShare
  nextId : Nat
deriving DecidableEq

/-- Model of `randomUUID()`: a fresh id derived from the storage counter. -/
def freshId (n : Nat) : String :=
  "uuid-" ++ natToStr n

/-- `MemStorage.createTranscript`: fresh id, `fileName || null`, current
timestamp, `Map.set`. -/
def MemStorage.createTranscript (st : MemStorage) (ins : InsertTranscript)
    (now : Nat) : Transcript × MemStorage :=
  let id := freshId st.nextId
  let t : Transcript :=
    { id := id, content := ins.content, fileName := orNull ins.fileName,
      createdAt := now }
  (t, { st with transcripts := jsMapSet Transcript.id st.transcripts t,
                nextId := st.nextId + 1 })

/-- `MemStorage.getTranscript`. -/
def MemStorage.getTranscript (st : MemStorage) (id : String) : Option Transcript :=
  jsMapGet Transcript.id st.transcripts id

/-- `MemStorage.createSummary`: fresh id, `customInstructions || null`,
`wordCount || null`, current timestamp, `Map.set`. -/
def MemStorage.createSummary (st : MemStorage) (ins : InsertSummary)
    (now : Nat) : Summary × MemStorage :=
  let id := freshId st.nextId
  let s : Summary :=
    { id := id, transcriptId := ins.transcriptId, content := ins.content,
      customInstructions := orNull ins.customInstructions,
      wordCount := orNull ins.wordCount, createdAt := now }
  (s, { st with summaries := jsMapSet Summary.id st.summaries s,
                nextId := st.nextId + 1 })

/-- `MemStorage.getSummary`. -/
def MemStorage.getSummary (st : MemStorage) (id : String) : Option Summary :=
  jsMapGet Summary.id st.summaries id

/-- The record built by `updateSummary` on a hit:
`{...summary, content, wordCount: content.trim().split(/\s+/).length.toString()}`. -/
def updatedSummary (s : Summary) (content : String) : Summary :=
  { s with content := content, wordCount := some (jsWordCount content) }

/-- `MemStorage.updateSummary`: on a miss return `undefined` and leave the
state untouched; on a hit replace `content`, recompute `wordCount` as
`content.trim().split(/\s+/).length.toString()`, keep every other field,
and `Map.set` the record back under the same id. -/
def MemStorage.updateSummary (st : MemStorage) (id : String) (content : String) :
    Option Summary × MemStorage :=
  match jsMapGet Summary.id st.summaries id with
  | none => (none, st)
  | some s =>
    let u : Summary := updatedSummary s content
    (some u, { st with summaries := jsMapSet Summary.id st.summaries u })

/-- `MemStorage.getSummariesByTranscriptId`:
`Array.from(map.values()).filter(s => s.transcriptId === transcriptId)`. -/
def MemStorage.getSummariesByTranscriptId (st : MemStorage) (transcriptId : String) :
    List Summary :=
  st.summaries.filter (fun s => s.transcriptId == transcriptId)

/-- `MemStorage.createEmailShare`: fresh id, `message || null`, `sentAt`
timestamp, `Map.set`. -/
def MemStorage.createEmailShare (st : MemStorage) (ins : InsertEmailShare)
    (now : Nat) : EmailShare × MemStorage :=
  let id := freshId st.nextId
  let e : EmailShare :=
    { id := id, summaryId := ins.summaryId, recipients := ins.recipients,
      subject := ins.subject, message := orNull ins.message, sentAt := now }
  (e, { st with emailShares := jsMapSet EmailShare.id st.emailShares e,
                nextId := st.nextId + 1 })

/-- `MemStorage.getEmailSharesBySummaryId`. -/
def MemStorage.getEmailSharesBySummaryId (st : MemStorage) (summaryId : String) :
    List EmailShare :=
  st.emailShares.filter (fun e => e.summaryId == summaryId)

/-! ### Orchestration handlers (`routes.ts`)

Each handler is a pure function of the storage state, the (already
JSON-decoded) request body, an abstract timestamp, and its external
collaborator.  It returns the HTTP status code it answers with, the new
storage state, and a trace of the collaborator calls it issued. -/

/-- The fixed default instruction text of the generate-summary handler. -/
def defaultInstructions : String :=
  "Summarize the following meeting transcript in a clear, organized format with key discussion points and action items."

/-- Body shape validated by `generateSummarySchema`: `transcriptContent`
must be a non-empty string, `customInstructions` is optional. -/
structure GenerateSummaryBody where
  transcriptContent : String
  customInstructions : Option String
deriving DecidableEq

/-- Body shape validated by `sendEmailSchema`. -/
structure SendEmailBody where
  summaryId : String
  recipients : List String
  subject : String
  message : Option String
deriving DecidableEq

/-- One call to the mail collaborator (`transporter.sendMail`): recipient,
subject, plain-text body and HTML body. -/
structure MailCall where
  toAddr : String
  subject : String
  text : String
  html : String
deriving DecidableEq

/-- `sendEmailSchema` as a boolean check: `summaryId` non-empty,
`recipients` a non-empty array of addresses accepted by the email-format
check (the zod format regex is kept abstract as `emailOk`), `subject`
non-empty.  `zod.parse` succeeds exactly when all checks pass. -/
def sendEmailValid (emailOk : String → Bool) (b : SendEmailBody) : Bool :=
  (b.summaryId.length != 0) && (b.recipients.length != 0) &&
    b.recipients.all emailOk && (b.subject.length != 0)

/-- `POST /api/transcripts` (create transcript from text): reject an
absent/non-string/empty `content` with 400, otherwise trim it and persist
it with no file name. -/
def createTranscriptTextHandler (st : MemStorage) (content : Option String)
    (now : Nat) : Nat × Option Transcript × MemStorage :=
  match content with
  | none => (400, none, st)
  | some c =>
    if c = "" then (400, none, st)
    else
      let (t, st1) := st.createTranscript
        { content := jsTrimStr c, fileName := none } now
      (200, some t, st1)

/-- The `instructions` local of the generate-summary handler:
`customInstructions || defaultInstructions`. -/
def effectiveInstructions (body : GenerateSummaryBody) : String :=
  match body.customInstructions with
  | none => defaultInstructions
  | some ci => if ci = "" then defaultInstructions else ci

/-- The `prompt` local of the generate-summary handler:
`` `${instructions}\n\nTranscript:\n${transcriptContent}` ``. -/
def generatePrompt (body : GenerateSummaryBody) : String :=
  effectiveInstructions body ++ "\n\nTranscript:\n" ++ body.transcriptContent

/-- The `summaryContent` local of the generate-summary handler:
`completion.choices[0]?.message?.content || ""`. -/
def completionText (complete : String → Option String) (prompt : String) : String :=
  match complete prompt with
  | none => ""
  | some c => c

/-- `POST /api/summaries/generate`: validate the body, persist the
transcript, build the prompt from `customInstructions || defaultInstructions`,
invoke the completion collaborator (`complete`, returning the optional
`choices[0]?.message?.content`), fall back to `""`, compute the word
count, persist the summary.  The last component is the list of prompts
sent to the completion collaborator. -/
def generateSummaryHandler (complete : String → Option String) (st : MemStorage)
    (body : GenerateSummaryBody) (now : Nat) :
    Nat × Option Summary × MemStorage × List String :=
  if body.transcriptContent = "" then (400, none, st, [])
  else
    let (t, st1) := st.createTranscript
      { content := body.transcriptContent, fileName := none } now
    let prompt := generatePrompt body
    let summaryContent := completionText complete prompt
    let (s, st2) := st1.createSummary
      { transcriptId := t.id, content := summaryContent,
        customInstructions := some (effectiveInstructions body),
        wordCount := some (jsWordCount summaryContent) } now
    (200, some s, st2, [prompt])

/-- The email body composed by the send-email handler: the template
literal around the optional message, the summary content and the fixed
disclaimer, then `.trim()`. -/
def composeEmailBody (message : Option String) (summaryContent : String) : String :=
  jsTrimStr ("\n"
    ++ (match message with
        | none => ""
        | some m => if m = "" then "" else m ++ "\n\n")
    ++ "\n---\n" ++ summaryContent
    ++ "\n---\n\nThis summary was generated using AI and may require review.\n      ")

/-- The per-recipient mail calls issued by the send-email handler: all
recipients share the subject and the two body renderings. -/
def mailCalls (body : SendEmailBody) (summaryContent : String) : List MailCall :=
  let emailBody := composeEmailBody body.message summaryContent
  body.recipients.map (fun r =>
    { toAddr := r, subject := body.subject, text := emailBody,
      html := brOfNewlinesStr emailBody })

/-- `POST /api/summaries/email`: validate the body (400 on failure before
any collaborator call or store write), look up the summary (404 on miss),
send one mail per recipient, and only when every send succeeds persist the
`EmailShare` (500 and no store write when any send fails).  `mailer`
returns whether a given send succeeds; the last component is the list of
mail calls issued. -/
def sendEmailHandler (emailOk : String → Bool) (mailer : MailCall → Bool)
    (st : MemStorage) (body : SendEmailBody) (now : Nat) :
    Nat × MemStorage × List MailCall :=
  if sendEmailValid emailOk body = false then (400, st, [])
  else
    match st.getSummary body.summaryId with
    | none => (404, st, [])
    | some summary =>
      let calls := mailCalls body summary.content
      if calls.all mailer then
        let (_, st1) := st.createEmailShare
          { summaryId := body.summaryId,
            recipients := jsonStringify body.recipients,
            subject := body.subject, message := orNull body.message } now
        (200, st1, calls)
      else
        (500, st, calls)

/-! ### Fixtures used by the witness theorems -/

/-- A sample stored summary. -/
def sampleSummary : Summary :=
  { id := "s1", transcriptId := "t1", content := "hello world",
    customInstructions := none, wordCount := some "2", createdAt := 0 }

/-- A sample storage state holding exactly `sampleSummary`. -/
def sampleStore : MemStorage :=
  { transcripts := [], summaries := [sampleSummary], emailShares := [], nextId := 0 }

/-- A sample valid send-email body addressing `sampleSummary`. -/
def sampleEmailBody : SendEmailBody :=
  { summaryId := "s1", recipients := ["a@b.com"], subject := "Notes", message := none }

/-- `sampleSummary` after an update with content `"a b c d"`. -/
def sampleUpdated : Summary :=
  { id := "s1", transcriptId := "t1", content := "a b c d",
    customInstructions := none, wordCount := some "4", createdAt := 0 }

/-- `sampleStore` after that update. -/
def sampleStoreUpdated : MemStorage :=
  { transcripts := [], summaries := [sampleUpdated], emailShares := [], nextId := 0 }

/-! ### Helper lemmas -/

/-- `splitWsGo` never returns the empty list: the JS `split` always yields
at least one element. -/
theorem splitWsGo_ne_nil : ∀ (fuel : Nat) (l acc : List Char),
    splitWsGo fuel l acc ≠ [] := by
  intro fuel
  induction fuel with
  | zero => intro l acc; simp [splitWsGo]
  | succ k ih =>
    intro l acc
    cases l with
    | nil => simp [splitWsGo]
    | cons c rest =>
      by_cases hw : c.isWhitespace
      · simp [splitWsGo, hw]
      · simpa [splitWsGo, hw] using ih rest (c :: acc)

/-- The split of any string has at least one element. -/
theorem splitWs_length_pos (s : List Char) : 1 ≤ (splitWs s).length := by
  have h := splitWsGo_ne_nil (s.length + 1) s []
  cases hEq : splitWsGo (s.length + 1) s [] with
  | nil => exact absurd hEq h
  | cons a t => simp [splitWs, hEq]

/-- `natToStrAux` with positive fuel prepends at least one digit. -/
theorem natToStrAux_split : ∀ (fuel n : Nat) (acc : List Char),
    ∃ l, natToStrAux (fuel + 1) n acc = l ++ acc ∧ l ≠ [] := by
  intro fuel
  induction fuel with
  | zero =>
    intro n acc
    refine ⟨[Char.ofNat (48 + n % 10)], ?_, by simp⟩
    simp only [natToStrAux]
    split <;> rfl
  | succ k ih =>
    intro n acc
    by_cases h : n < 10
    · exact ⟨[Char.ofNat (48 + n % 10)], by simp [natToStrAux, h], by simp⟩
    · obtain ⟨l, hl, hne⟩ := ih (n / 10) (Char.ofNat (48 + n % 10) :: acc)
      refine ⟨l ++ [Char.ofNat (48 + n % 10)], ?_, by simp⟩
      have hstep : natToStrAux (k + 1 + 1) n acc
          = natToStrAux (k + 1) (n / 10) (Char.ofNat (48 + n % 10) :: acc) := by
        conv_lhs => rw [natToStrAux]
        simp [h]
      rw [hstep, hl]
      simp

/-- The decimal rendering of a natural number is never the empty string. -/
theorem natToStr_ne_empty (n : Nat) : natToStr n ≠ "" := by
  obtain ⟨l, hl, hne⟩ := natToStrAux_split n n []
  intro h
  have hdata := congrArg String.data h
  simp only [natToStr, hl] at hdata
  simp at hdata
  exact hne hdata

/-- The decimal rendering of a natural number is `"0"` only for zero. -/
theorem natToStr_eq_zero {n : Nat} (h : natToStr n = "0") : n = 0 := by
  by_cases h10 : n < 10
  · interval_cases n <;> revert h <;> decide
  · exfalso
    obtain ⟨m, rfl⟩ : ∃ m, n = m + 1 := ⟨n - 1, by omega⟩
    obtain ⟨l, hl, hne⟩ :=
      natToStrAux_split m ((m + 1) / 10) [Char.ofNat (48 + (m + 1) % 10)]
    have hdata : natToStrAux (m + 1 + 1) (m + 1) [] = "0".data :=
      congrArg String.data h
    have hstep : natToStrAux (m + 1 + 1) (m + 1) []
        = natToStrAux (m + 1) ((m + 1) / 10) [Char.ofNat (48 + (m + 1) % 10)] := by
      conv_lhs => rw [natToStrAux]
      simp [h10]
    rw [hstep, hl] at hdata
    have hlen := congrArg List.length hdata
    simp at hlen
    exact hne hlen

/-- `orNull` keeps any non-empty string. -/
theorem orNull_of_ne_empty {s : String} (h : s ≠ "") : orNull (some s) = some s := by
  simp [orNull, h]

/-- `Map.set` always leaves the inserted value in the collection. -/
theorem mem_jsMapSet {α : Type} (key : α → String) (l : List α) (v : α) :
    v ∈ jsMapSet key l v := by
  unfold jsMapSet
  split
  · rename_i h
    rw [List.any_eq_true] at h
    obtain ⟨x, hx, hk⟩ := h
    refine List.mem_map.2 ⟨x, hx, ?_⟩
    simp [hk]
  · exact List.mem_append_right _ (List.mem_singleton.2 rfl)

/-- A `find?` hit yields an element whose key matches. -/
theorem jsMapGet_key {α : Type} {key : α → String} {l : List α} {id : String}
    {s : α} (h : jsMapGet key l id = some s) : key s = id := by
  have := List.find?_some h
  simpa using this

/-- Replacing the entries matching `key v` by `v` makes `find?` for that key
return `v`, when the key was already present. -/
theorem find?_map_update {α : Type} (key : α → String) (id : String) (v : α)
    (hv : key v = id) :
    ∀ (l : List α) (s : α), l.find? (fun x => key x == id) = some s →
      (l.map (fun x => if key x == key v then v else x)).find?
        (fun x => key x == id) = some v := by
  intro l
  induction l with
  | nil => intro s h; simp at h
  | cons x t ih =>
    intro s h
    by_cases hx : key x = id
    · have hxv : key x = key v := by rw [hx, hv]
      simp [List.find?_cons, hxv, hv]
    · have hxv : ¬ key x = key v := by rw [hv]; exact hx
      rw [List.find?_cons_of_neg _ (by simpa using hx)] at h
      simp only [List.map_cons]
      rw [if_neg (by simpa using hxv)]
      rw [List.find?_cons_of_neg _ (by simpa using hx)]
      exact ih s h

/-- `Map.get` after `Map.set` under an already-present key returns the new
value. -/
theorem jsMapGet_jsMapSet {α : Type} (key : α → String) (l : List α)
    (s v : α) (id : String) (hf : jsMapGet key l id = some s)
    (hk : key v = key s) :
    jsMapGet key (jsMapSet key l v) id = some v := by
  have hsid : key s = id := jsMapGet_key hf
  have hvid : key v = id := by rw [hk, hsid]
  have hmem : s ∈ l := List.mem_of_find?_eq_some hf
  have hany : l.any (fun x => key x == key v) = true := by
    rw [List.any_eq_true]
    exact ⟨s, hmem, by simp [hk]⟩
  unfold jsMapSet jsMapGet
  rw [if_pos hany]
  exact find?_map_update key id v hvid l s hf

/-- Unfolding of `updateSummary` on a hit: the returned record is the old
one with `content` replaced and `wordCount` recomputed, and it is written
back under the same key. -/
theorem updateSummary_hit (st : MemStorage) (id content : String) (s : Summary)
    (h : st.getSummary id = some s) :
    st.updateSummary id content =
      (some (updatedSummary s content),
       { st with
          summaries := jsMapSet Summary.id st.summaries (updatedSummary s content) }) := by
  unfold MemStorage.updateSummary
  rw [show jsMapGet Summary.id st.summaries id = some s from h]

/-- After a hit update, reading the same id returns the updated record. -/
theorem getSummary_after_update (st : MemStorage) (id content : String) (s : Summary)
    (h : st.getSummary id = some s) :
    ({ st with
        summaries := jsMapSet Summary.id st.summaries (updatedSummary s content) }
       : MemStorage).getSummary id = some (updatedSummary s content) := by
  exact jsMapGet_jsMapSet Summary.id st.summaries s _ id h rfl

/-! ### The claims -/

/-- Claim C6: for every id not present in the summary store,
`updateSummary(id, content)` returns the "not found" sentinel (not an
exception), creates no new record, and leaves the store's contents
completely unchanged. -/
theorem updateSummary_unknown_id (st : MemStorage) (id content : String)
    (h : st.getSummary id = none) :
    st.updateSummary id content = (none, st) := by
  unfold MemStorage.updateSummary
  rw [show jsMapGet Summary.id st.summaries id = none from h]

/-- Witness for C6 at a concrete store and unknown id. -/
theorem updateSummary_unknown_id_witness :
    sampleStore.updateSummary "nope" "x y" = (none, sampleStore) :=
  updateSummary_unknown_id sampleStore "nope" "x y" (by decide)

/-- Claim C3: for every stored Summary id, `updateSummary(id, "one two three")`
sets the stored word count to the string `"3"`, and
`updateSummary(id, "  a   b  ")` sets it to `"2"`: leading/trailing
whitespace is trimmed and interior whitespace runs of any length count as
single separators. -/
theorem updateSummary_word_count_examples (st : MemStorage) (id : String)
    (s : Summary) (h : st.getSummary id = some s) :
    (∃ u st2, st.updateSummary id "one two three" = (some u, st2)
      ∧ u.wordCount = some "3" ∧ st2.getSummary id = some u)
    ∧ (∃ u st2, st.updateSummary id "  a   b  " = (some u, st2)
      ∧ u.wordCount = some "2" ∧ st2.getSummary id = some u) := by
  constructor
  · refine ⟨_, _, updateSummary_hit st id "one two three" s h, ?_, ?_⟩
    · show some (jsWordCount "one two three") = some "3"
      decide
    · exact getSummary_after_update st id "one two three" s h
  · refine ⟨_, _, updateSummary_hit st id "  a   b  " s h, ?_, ?_⟩
    · show some (jsWordCount "  a   b  ") = some "2"
      decide
    · exact getSummary_after_update st id "  a   b  " s h

/-- Witness for C3 at a concrete store and stored id. -/
theorem updateSummary_word_count_examples_witness :
    (sampleStore.updateSummary "s1" "one two three").1.map Summary.wordCount
      = some (some "3") := by
  obtain ⟨⟨u, st2, h1, h2, -⟩, -⟩ :=
    updateSummary_word_count_examples sampleStore "s1" sampleSummary (by decide)
  rw [h1]
  simp [h2]

/-- Claim C7: for every Summary present in the store,
`updateSummary(id, newContent)` replaces only the content and wordCount
fields; the returned and stored record's id, transcriptId,
customInstructions, and createdAt timestamp are identical to their values
before the update. -/
theorem updateSummary_frame (st : MemStorage) (id content : String)
    (s : Summary) (h : st.getSummary id = some s) :
    ∃ u st2, st.updateSummary id content = (some u, st2)
      ∧ u.id = s.id ∧ u.transcriptId = s.transcriptId
      ∧ u.customInstructions = s.customInstructions
      ∧ u.createdAt = s.createdAt
      ∧ u.content = content ∧ u.wordCount = some (jsWordCount content)
      ∧ st2.getSummary id = some u
      ∧ st2.transcripts = st.transcripts
      ∧ st2.emailShares = st.emailShares := by
  refine ⟨_, _, updateSummary_hit st id content s h,
    rfl, rfl, rfl, rfl, rfl, rfl, getSummary_after_update st id content s h,
    rfl, rfl⟩

/-- Witness for C7 at a concrete store and stored id. -/
theorem updateSummary_frame_witness :
    (sampleStore.updateSummary "s1" "brand new words").1.map Summary.transcriptId
      = some "t1" := by
  obtain ⟨u, st2, h1, -, h2, -⟩ :=
    updateSummary_frame sampleStore "s1" "brand new words" sampleSummary (by decide)
  rw [h1]
  simp [h2]
  rfl

/-- Claim C4: for every send-email request whose recipients array is empty,
validation fails (client error) before any mail-send collaborator call and
before any store write: zero mail sends are attempted and no EmailShare is
created. -/
theorem email_empty_recipients_rejected (emailOk : String → Bool)
    (mailer : MailCall → Bool) (st : MemStorage) (body : SendEmailBody)
    (now : Nat) (h : body.recipients = []) :
    sendEmailHandler emailOk mailer st body now = (400, st, []) := by
  have hv : sendEmailValid emailOk body = false := by
    simp [sendEmailValid, h]
  simp [sendEmailHandler, hv]

/-- Witness for C4 at a concrete empty-recipients body. -/
theorem email_empty_recipients_rejected_witness :
    sendEmailHandler (fun _ => true) (fun _ => true) sampleStore
      { summaryId := "s1", recipients := [], subject := "Notes", message := none } 0
      = (400, sampleStore, []) :=
  email_empty_recipients_rejected (fun _ => true) (fun _ => true) sampleStore
    { summaryId := "s1", recipients := [], subject := "Notes", message := none } 0 rfl

/-- Claim C8: for every transcriptId, `getSummariesByTranscriptId` returns
exactly the stored summaries whose transcriptId field equals the argument,
in the insertion order of the underlying storage, and returns the empty
sequence when no stored summary references that transcriptId. -/
theorem getSummariesByTranscriptId_exact (st : MemStorage) (tid : String) :
    (∀ s, s ∈ st.getSummariesByTranscriptId tid
      ↔ (s ∈ st.summaries ∧ s.transcriptId = tid))
    ∧ (st.getSummariesByTranscriptId tid).Sublist st.summaries
    ∧ ((∀ s ∈ st.summaries, s.transcriptId ≠ tid)
      → st.getSummariesByTranscriptId tid = []) := by
  refine ⟨?_, ?_, ?_⟩
  · intro s
    simp [MemStorage.getSummariesByTranscriptId, List.mem_filter]
  · exact List.filter_sublist st.summaries
  · intro hnone
    rw [MemStorage.getSummariesByTranscriptId, List.filter_eq_nil_iff]
    intro s hs
    simpa using hnone s hs

/-- Witness for C8 at a concrete store and an unreferenced transcriptId. -/
theorem getSummariesByTranscriptId_exact_witness :
    sampleStore.getSummariesByTranscriptId "t-unused" = [] :=
  (getSummariesByTranscriptId_exact sampleStore "t-unused").2.2 (by decide)

/-- Claim C10: the create-transcript-from-text handler's presence check only
rejects content that is absent, non-string, or the empty string; a content
string consisting solely of whitespace passes the check, is trimmed to the
empty string, and a Transcript with empty content is stored and returned
with success. -/
theorem createTranscript_whitespace_content (st : MemStorage) (now : Nat)
    (content : String) (h1 : content ≠ "") (h2 : jsTrimStr content = "") :
    ∃ t st2, createTranscriptTextHandler st (some content) now = (200, some t, st2)
      ∧ t.content = "" ∧ t ∈ st2.transcripts := by
  simp only [createTranscriptTextHandler, if_neg h1]
  refine ⟨_, _, rfl, h2, ?_⟩
  exact mem_jsMapSet Transcript.id st.transcripts _

/-- Witness for C10 at the whitespace-only content string. -/
theorem createTranscript_whitespace_content_witness :
    ((createTranscriptTextHandler sampleStore (some "   ") 0).2.1).map
      Transcript.content = some "" := by
  obtain ⟨t, st2, h1, h2, -⟩ :=
    createTranscript_whitespace_content sampleStore 0 "   " (by decide) (by decide)
  rw [h1]
  simp [h2]

/-- Claim C5: for every generate-summary request with no custom instructions
supplied, the prompt passed to the completion collaborator begins with the
fixed default instruction text, and the resulting stored Summary's
customInstructions field equals that default instruction text rather than
the absent marker. -/
theorem generate_default_instructions (complete : String → Option String)
    (st : MemStorage) (body : GenerateSummaryBody) (now : Nat)
    (hv : body.transcriptContent ≠ "") (hc : body.customInstructions = none) :
    ∃ s st2 prompt,
      generateSummaryHandler complete st body now = (200, some s, st2, [prompt])
      ∧ (∃ rest, prompt = defaultInstructions ++ rest)
      ∧ s.customInstructions = some defaultInstructions
      ∧ s ∈ st2.summaries := by
  have hi : effectiveInstructions body = defaultInstructions := by
    simp [effectiveInstructions, hc]
  simp only [generateSummaryHandler, if_neg hv]
  refine ⟨_, _, _, rfl, ?_, ?_, ?_⟩
  · refine ⟨"\n\nTranscript:\n" ++ body.transcriptContent, ?_⟩
    show generatePrompt body = _
    rw [generatePrompt, hi, String.append_assoc]
  · show orNull (some (effectiveInstructions body)) = some defaultInstructions
    rw [hi]
    exact orNull_of_ne_empty (by decide)
  · exact mem_jsMapSet Summary.id _ _

/-- Witness for C5 at a concrete request without custom instructions. -/
theorem generate_default_instructions_witness :
    ((generateSummaryHandler (fun _ => some "Short summary.") sampleStore
        { transcriptContent := "Alice: hi", customInstructions := none } 0).2.1).map
      Summary.customInstructions = some (some defaultInstructions) := by
  obtain ⟨s, st2, p, h1, -, h3, -⟩ :=
    generate_default_instructions (fun _ => some "Short summary.") sampleStore
      { transcriptContent := "Alice: hi", customInstructions := none } 0
      (by decide) rfl
  rw [h1]
  simp [h3]

/-- Claim C9: the computed word count is never the string "0": for content
that is empty or consists only of whitespace, trim + split yields a single
empty-string element, so `updateSummary` stores wordCount "1", and
generate-summary with a completion collaborator that returns no content
stores wordCount "1". -/
theorem wordCount_never_zero :
    (∀ content : String, jsWordCount content ≠ "0")
    ∧ (∀ content : String, jsTrimStr content = "" → jsWordCount content = "1")
    ∧ (∀ (st : MemStorage) (body : GenerateSummaryBody) (now : Nat),
        body.transcriptContent ≠ "" →
        ∃ s st2 prompts,
          generateSummaryHandler (fun _ => none) st body now
            = (200, some s, st2, prompts)
          ∧ s.wordCount = some "1") := by
  refine ⟨?_, ?_, ?_⟩
  · intro content h
    have h0 : (splitWs (jsTrim content.toList)).length = 0 := natToStr_eq_zero h
    have hpos := splitWs_length_pos (jsTrim content.toList)
    omega
  · intro content h
    have hdata : jsTrim content.toList = [] := congrArg String.data h
    show natToStr (splitWs (jsTrim content.toList)).length = "1"
    rw [hdata]
    rfl
  · intro st body now hv
    simp only [generateSummaryHandler, if_neg hv]
    refine ⟨_, _, _, rfl, ?_⟩
    show orNull (some (jsWordCount
      (completionText (fun _ => none) (generatePrompt body)))) = some "1"
    rfl

/-- Witness for C9 at a whitespace-only content string. -/
theorem wordCount_never_zero_witness : jsWordCount "   " = "1" :=
  wordCount_never_zero.2.1 "   " (by decide)

/-- Claim C1: for every operation that sets or updates a Summary's content
(createSummary as invoked by any handler, and updateSummary), the stored
wordCount field equals the number of whitespace-separated runs of
trim(content), converted to a string; wordCount is never taken directly
from caller-supplied input. -/
theorem wordCount_always_recomputed :
    (∀ (complete : String → Option String) (st : MemStorage)
       (body : GenerateSummaryBody) (now code : Nat) (s : Summary)
       (st2 : MemStorage) (prompts : List String),
       generateSummaryHandler complete st body now = (code, some s, st2, prompts) →
       s.wordCount = some (jsWordCount s.content) ∧ s ∈ st2.summaries)
    ∧ (∀ (st : MemStorage) (id content : String) (u : Summary)
       (st2 : MemStorage),
       st.updateSummary id content = (some u, st2) →
       u.content = content ∧ u.wordCount = some (jsWordCount content)
       ∧ u ∈ st2.summaries) := by
  constructor
  · intro complete st body now code s st2 prompts h
    by_cases hv : body.transcriptContent = ""
    · simp [generateSummaryHandler, hv] at h
    · simp only [generateSummaryHandler, if_neg hv, MemStorage.createTranscript,
        MemStorage.createSummary, Prod.mk.injEq, Option.some.injEq] at h
      obtain ⟨-, hs, hst2, -⟩ := h
      subst hs
      subst hst2
      constructor
      · show orNull (some (jsWordCount
          (completionText complete (generatePrompt body)))) = some _
        have hne : jsWordCount (completionText complete (generatePrompt body)) ≠ "" :=
          natToStr_ne_empty _
        rw [orNull_of_ne_empty hne]
      · exact mem_jsMapSet Summary.id _ _
  · intro st id content u st2 h
    unfold MemStorage.updateSummary at h
    cases hg : jsMapGet Summary.id st.summaries id with
    | none => rw [hg] at h; simp at h
    | some s =>
      rw [hg] at h
      simp only [Prod.mk.injEq, Option.some.injEq] at h
      obtain ⟨hu, hst⟩ := h
      subst hu
      subst hst
      refine ⟨rfl, rfl, ?_⟩
      exact mem_jsMapSet Summary.id _ _

/-- Witness for C1: a concrete update whose stored record carries the
recomputed word count. -/
theorem wordCount_always_recomputed_witness :
    sampleUpdated.content = "a b c d"
    ∧ sampleUpdated.wordCount = some (jsWordCount "a b c d")
    ∧ sampleUpdated ∈ sampleStoreUpdated.summaries :=
  wordCount_always_recomputed.2 sampleStore "s1" "a b c d" sampleUpdated
    sampleStoreUpdated (by decide)

/-- Claim C2: for every send-email request that passes validation and finds
its Summary, if the mail collaborator fails for at least one recipient, then
the request reports failure (server fault) and no EmailShare record is
persisted to the store (createEmailShare is never called). -/
theorem email_failure_no_partial_write (emailOk : String → Bool)
    (mailer : MailCall → Bool) (st : MemStorage) (body : SendEmailBody)
    (now : Nat) (hv : sendEmailValid emailOk body = true)
    (hs : ∃ s, st.getSummary body.summaryId = some s)
    (hf : ∃ c ∈ (sendEmailHandler emailOk mailer st body now).2.2,
      mailer c = false) :
    (sendEmailHandler emailOk mailer st body now).1 = 500
    ∧ (sendEmailHandler emailOk mailer st body now).2.1 = st := by
  obtain ⟨s, hsumm⟩ := hs
  have hvne : ¬ sendEmailValid emailOk body = false := by simp [hv]
  by_cases hall : (mailCalls body s.content).all mailer
  · exfalso
    have h22 : (sendEmailHandler emailOk mailer st body now).2.2
        = mailCalls body s.content := by
      simp only [sendEmailHandler, if_neg hvne, hsumm, if_pos hall,
        MemStorage.createEmailShare]
    obtain ⟨c, hc, hcf⟩ := hf
    rw [h22] at hc
    rw [List.all_eq_true] at hall
    have := hall c hc
    rw [hcf] at this
    exact Bool.false_ne_true this
  · constructor <;>
      simp only [sendEmailHandler, if_neg hvne, hsumm, if_neg hall]

/-- Witness for C2: a mail collaborator that fails on the single recipient
leaves the store untouched and reports a server fault. -/
theorem email_failure_no_partial_write_witness :
    (sendEmailHandler (fun _ => true) (fun _ => false) sampleStore
      sampleEmailBody 0).1 = 500
    ∧ (sendEmailHandler (fun _ => true) (fun _ => false) sampleStore
      sampleEmailBody 0).2.1 = sampleStore :=
  email_failure_no_partial_write (fun _ => true) (fun _ => false) sampleStore
    sampleEmailBody 0 (by decide) ⟨sampleSummary, by decide⟩ (by decide)

end MeetingNotes
